import Mathlib

/-!
Verification of the contacts CRUD API (routes in `src/routes/contacts.py`
and `src/routes/users.py`) against its natural-language specification.

The HTTP route handlers are embedded directly from the source files.
The repository layer (`src.repository.contacts`, `src.repository.users`),
the ORM models and the pydantic schemas are not part of the provided
sources; they are modelled from the specification's description of the
data model and of the five scoped CRUD operations.
-/

namespace ContactsApp

/-- Modelled from the spec: the pydantic `ContactModel` creation/update
schema — first name, last name, email (the validated contact fields). -/
structure ContactModel where
  first_name : String
  last_name : String
  email : String
  deriving Repr, DecidableEq

/-- Modelled from the spec: the ORM `Contact` entity — generated primary
key `id`, the contact fields, and the owning user's id (`user_id`). -/
structure Contact where
  id : Nat
  first_name : String
  last_name : String
  email : String
  user_id : Nat
  deriving Repr, DecidableEq

/-- Modelled from the spec: the ORM `User` identity record — id,
username, email, and a nullable avatar URL string. -/
structure User where
  id : Nat
  username : String
  email : String
  avatar : Option String
  deriving Repr, DecidableEq

/-- Modelled from the spec: the persistence store reachable through the
per-request session — the stored contacts and users. -/
structure Db where
  contacts : List Contact
  users : List User
  deriving Repr, DecidableEq

/-- Does a contact pass the optional equality filters on first name,
last name and email? (An absent filter matches everything.) -/
def matchesFilters (first_name last_name email : Option String) (c : Contact) : Bool :=
  (match first_name with | some f => c.first_name == f | none => true) &&
  (match last_name with | some l => c.last_name == l | none => true) &&
  (match email with | some e => c.email == e | none => true)

/-- Does a contact match the scoped primary-key lookup `id` + owner? -/
def matchesIdOwner (contact_id : Nat) (user : User) (c : Contact) : Bool :=
  c.id == contact_id && c.user_id == user.id

/-- Modelled from the spec: `repository.contacts.get_contacts` — the
ordered set of the owner's contacts matching all supplied filters,
paginated by offset/limit. -/
def get_contacts (skip limit : Nat) (first_name last_name email : Option String)
    (user : User) (db : Db) : List Contact :=
  (((db.contacts.filter fun c =>
      c.user_id == user.id && matchesFilters first_name last_name email c).drop skip).take limit)

/-- Modelled from the spec: `repository.contacts.get_contact_by_id` — the
single contact with matching primary key and matching owner, if any. -/
def get_contact_by_id (contact_id : Nat) (user : User) (db : Db) : Option Contact :=
  db.contacts.find? (matchesIdOwner contact_id user)

/-- The generated identifier for a newly created contact: fresh with
respect to every id already stored. -/
def freshId (db : Db) : Nat :=
  (db.contacts.foldr (fun c m => max c.id m) 0) + 1

/-- Modelled from the spec: `repository.contacts.create_contact` —
persists a new record built from the schema data, associated with the
owner, and returns the created entity including its generated id. -/
def create_contact (body : ContactModel) (user : User) (db : Db) : Contact × Db :=
  let c : Contact :=
    { id := freshId db, first_name := body.first_name, last_name := body.last_name,
      email := body.email, user_id := user.id }
  (c, { db with contacts := db.contacts ++ [c] })

/-- Modelled from the spec: `repository.contacts.update_contact` — full
replacement of the fields of the contact matched by id + owner; `none`
(no change) when no such owned record exists. -/
def update_contact (contact_id : Nat) (body : ContactModel) (user : User) (db : Db) :
    Option Contact × Db :=
  match db.contacts.find? (matchesIdOwner contact_id user) with
  | none => (none, db)
  | some c0 =>
    let c : Contact :=
      { id := c0.id, first_name := body.first_name, last_name := body.last_name,
        email := body.email, user_id := c0.user_id }
    (some c,
     { db with contacts := db.contacts.map fun d =>
         if matchesIdOwner contact_id user d then
           { id := d.id, first_name := body.first_name, last_name := body.last_name,
             email := body.email, user_id := d.user_id }
         else d })

/-- Modelled from the spec: `repository.contacts.remove_contact` —
removes the record matched by the identity-scoped primary-key lookup and
returns its prior state; `none` when no such owned record exists. -/
def remove_contact (contact_id : Nat) (user : User) (db : Db) : Option Contact × Db :=
  match db.contacts.find? (matchesIdOwner contact_id user) with
  | none => (none, db)
  | some c0 =>
    (some c0,
     { db with contacts := db.contacts.filter fun d => !(matchesIdOwner contact_id user d) })

/-- Modelled from the spec: `repository.users.update_avatar` — persists
the URL string against the user record selected by email. -/
def update_avatar (email url : String) (db : Db) : Option User × Db :=
  (match db.users.find? (fun u => u.email == email) with
   | none => none
   | some u => some { u with avatar := some url },
   { db with users := db.users.map fun u =>
       if u.email == email then { u with avatar := some url } else u })

/-- An `HTTPException` as raised by the route handlers: status + detail. -/
structure HttpError where
  status_code : Nat
  detail : String
  deriving Repr, DecidableEq

/-- `HTTP_404_NOT_FOUND`. -/
def HTTP_404_NOT_FOUND : Nat := 404

/-- Route `GET /contacts/` (`get_contact_by_params` in
`src/routes/contacts.py`): queries the repository with the filters and
pagination; a falsy (empty) result raises 404 "Contacts not found". -/
def get_contact_by_params (skip limit : Nat) (first_name last_name email : Option String)
    (user : User) (db : Db) : Except HttpError (List Contact) :=
  let contact := get_contacts skip limit first_name last_name email user db
  if contact.isEmpty then
    .error { status_code := HTTP_404_NOT_FOUND, detail := "Contacts not found" }
  else
    .ok contact

/-- Default query parameter `skip` of `get_contact_by_params`
(`skip: int = 0`). -/
def defaultSkip : Nat := 0

/-- Default query parameter `limit` of `get_contact_by_params`
(`limit: int = Query(default=10)`). -/
def defaultLimit : Nat := 10

/-- Route `GET /contacts/{contact_id}` (`get_contact` in
`src/routes/contacts.py`): repository lookup by id + current user; `None`
raises 404 "Contact not found". -/
def get_contact (contact_id : Nat) (user : User) (db : Db) : Except HttpError Contact :=
  match get_contact_by_id contact_id user db with
  | none => .error { status_code := HTTP_404_NOT_FOUND, detail := "Contact not found" }
  | some c => .ok c

/-- Route `POST /contacts/` (`create_contact` in `src/routes/contacts.py`):
delegates to the repository and returns its result unconditionally. -/
def create_contact_route (body : ContactModel) (user : User) (db : Db) :
    Except HttpError Contact × Db :=
  let r := create_contact body user db
  (.ok r.1, r.2)

/-- Route `PUT /contacts/{contact_id}` (`update_contact` in
`src/routes/contacts.py`): repository update scoped by id + current user;
`None` raises 404 "Contact not found". -/
def update_contact_route (body : ContactModel) (contact_id : Nat) (user : User) (db : Db) :
    Except HttpError Contact × Db :=
  match update_contact contact_id body user db with
  | (none, db') =>
    (.error { status_code := HTTP_404_NOT_FOUND, detail := "Contact not found" }, db')
  | (some c, db') => (.ok c, db')

/-- Route `DELETE /contacts/{contact_id}` (`remove_tag` in
`src/routes/contacts.py`): repository removal scoped by id + current
user; `None` raises 404 "Contact not found". -/
def remove_tag (contact_id : Nat) (user : User) (db : Db) :
    Except HttpError Contact × Db :=
  match remove_contact contact_id user db with
  | (none, db') =>
    (.error { status_code := HTTP_404_NOT_FOUND, detail := "Contact not found" }, db')
  | (some c, db') => (.ok c, db')

/-- The five contact endpoints of `src/routes/contacts.py`. -/
inductive ContactEndpoint where
  | listContacts
  | getById
  | createContact
  | updateContact
  | deleteContact
  deriving Repr, DecidableEq

/-- A `RateLimiter(times=..., seconds=...)` dependency configuration. -/
structure RateLimit where
  times : Nat
  seconds : Nat
  deriving Repr, DecidableEq

/-- The rate-limiter dependency attached to each contact endpoint by its
route decorator in `src/routes/contacts.py`: the list, get-by-id and
create routes declare `RateLimiter(times=20, seconds=60)`; the update and
delete routes declare none. -/
def rateLimiterOf : ContactEndpoint → Option RateLimit
  | .listContacts => some { times := 20, seconds := 60 }
  | .getById => some { times := 20, seconds := 60 }
  | .createContact => some { times := 20, seconds := 60 }
  | .updateContact => none
  | .deleteContact => none

/-- The upload request issued to the external image host: the public id
under which the payload is stored and the overwrite flag. -/
structure UploadRequest where
  publicId : String
  overwrite : Bool
  deriving Repr, DecidableEq

/-- The transform segment of a built image URL for the given width,
height and crop mode. -/
def transformSegment (width height : Nat) (crop : String) : String :=
  "c_" ++ crop ++ ",h_" ++ toString height ++ ",w_" ++ toString width

/-- Modelled from the spec: the image-hosting provider's URL builder —
derives a display URL from transform parameters + version + path. -/
def build_url (publicId : String) (width height : Nat) (crop : String) (version : Nat) :
    String :=
  "https://res.cloudinary.com/image/upload/" ++
    transformSegment width height crop ++
    ("/v" ++ toString version ++ "/") ++ publicId

/-- Result of the avatar route: the upload request it issued, the URL it
built, the user record the repository returned, and the new store. -/
structure AvatarResult where
  req : UploadRequest
  url : String
  user : Option User
  db : Db
  deriving Repr, DecidableEq

/-- Route `PATCH /users/avatar` (`update_avatar_user` in
`src/routes/users.py`): uploads the file under public id
`ContactsApp/{username}` with `overwrite=True`, builds the display URL
with `width=250, height=250, crop='fill'` and the returned version, and
persists it via the repository keyed by `current_user.email`. The
version token returned by the external provider is a parameter. -/
def update_avatar_user (current_user : User) (version : Nat) (db : Db) : AvatarResult :=
  let publicId := "ContactsApp/" ++ current_user.username
  let src_url := build_url publicId 250 250 "fill" version
  let r := update_avatar current_user.email src_url db
  { req := { publicId := publicId, overwrite := true },
    url := src_url, user := r.1, db := r.2 }

/-! ## Helper lemmas -/

/-- A contact returned by the scoped primary-key lookup is owned by the
requesting user. -/
theorem owner_of_get_contact_by_id {contact_id : Nat} {u : User} {db : Db} {d : Contact}
    (h : get_contact_by_id contact_id u db = some d) : d.user_id = u.id := by
  have hp := List.find?_some h
  simp [matchesIdOwner] at hp
  exact hp.2

/-- A contact returned by the scoped primary-key lookup has the requested
id. -/
theorem id_of_get_contact_by_id {contact_id : Nat} {u : User} {db : Db} {d : Contact}
    (h : get_contact_by_id contact_id u db = some d) : d.id = contact_id := by
  have hp := List.find?_some h
  simp [matchesIdOwner] at hp
  exact hp.1

/-- When contact ids are unique, a lookup for the id of a contact owned
by `A`, issued by a user with a different id, finds nothing. -/
theorem get_contact_by_id_none_of_nonowner {A B : User} {c : Contact} {db : Db}
    (hAB : A.id ≠ B.id) (hmem : c ∈ db.contacts) (hown : c.user_id = A.id)
    (hids : (db.contacts.map Contact.id).Nodup) :
    get_contact_by_id c.id B db = none := by
  rw [get_contact_by_id, List.find?_eq_none]
  intro d hd hpd
  simp [matchesIdOwner] at hpd
  have hdc : d = c := List.inj_on_of_nodup_map hids hd hmem hpd.1
  subst hdc
  rw [hown] at hpd
  exact hAB hpd.2

/-- Every stored id is bounded by the fold used to generate fresh ids. -/
theorem id_le_foldr_max {c : Contact} :
    ∀ {l : List Contact}, c ∈ l → c.id ≤ l.foldr (fun d m => max d.id m) 0 := by
  intro l
  induction l with
  | nil => intro h; cases h
  | cons a t ih =>
    intro h
    rcases List.mem_cons.mp h with h | h
    · subst h; exact Nat.le_max_left _ _
    · exact Nat.le_trans (ih h) (Nat.le_max_right _ _)

/-- `find?` commutes with a map that does not change the predicate. -/
theorem find?_map_of_pred_eq {p : Contact → Bool} {g : Contact → Contact}
    (hg : ∀ c, p (g c) = p c) :
    ∀ (l : List Contact), (l.map g).find? p = (l.find? p).map g := by
  intro l
  induction l with
  | nil => rfl
  | cons a t ih =>
    simp only [List.map_cons, List.find?_cons]
    rw [hg a]
    cases p a <;> simp [ih]

/-! ## Claim theorems -/

/-- C1. Ownership isolation: for distinct users `A` and `B` and a contact
`c` owned by `A` (with unique stored ids, the store's primary-key
invariant), the get-by-id route called by `B` on `c.id` answers 404; the
scoped lookup never yields a contact not owned by the requester; list
results contain only the requester's contacts; and update and delete
issued by `B` on `c.id` report nothing found and leave the store
unchanged. -/
theorem ownership_isolation (A B : User) (c : Contact) (body : ContactModel) (db : Db)
    (hAB : A.id ≠ B.id) (hmem : c ∈ db.contacts) (hown : c.user_id = A.id)
    (hids : (db.contacts.map Contact.id).Nodup) :
    get_contact c.id B db =
      .error { status_code := HTTP_404_NOT_FOUND, detail := "Contact not found" }
    ∧ (∀ (i : Nat) (d : Contact), get_contact_by_id i B db = some d → d.user_id = B.id)
    ∧ (∀ (skip limit : Nat) (fn ln em : Option String) (d : Contact),
        d ∈ get_contacts skip limit fn ln em B db → d.user_id = B.id)
    ∧ update_contact c.id body B db = (none, db)
    ∧ remove_contact c.id B db = (none, db) := by
  have hnone : get_contact_by_id c.id B db = none :=
    get_contact_by_id_none_of_nonowner hAB hmem hown hids
  refine ⟨?_, ?_, ?_, ?_, ?_⟩
  · rw [get_contact, hnone]
  · intro i d hd
    exact owner_of_get_contact_by_id hd
  · intro skip limit fn ln em d hd
    have h1 : d ∈ db.contacts.filter fun x =>
        x.user_id == B.id && matchesFilters fn ln em x :=
      List.mem_of_mem_drop (List.mem_of_mem_take hd)
    have h2 := (List.mem_filter.mp h1).2
    simp at h2
    exact h2.1
  · rw [update_contact]
    rw [get_contact_by_id] at hnone
    rw [hnone]
  · rw [remove_contact]
    rw [get_contact_by_id] at hnone
    rw [hnone]

/-- Sample data used by the witnesses. -/
def annBody : ContactModel :=
  { first_name := "Ann", last_name := "Lee", email := "ann@x.com" }

/-- Sample user 1. -/
def user1 : User := { id := 1, username := "u1", email := "u1@x.com", avatar := none }

/-- Sample user 2. -/
def user2 : User := { id := 2, username := "u2", email := "u2@x.com", avatar := none }

/-- Sample contact owned by `user1`. -/
def contact1 : Contact :=
  { id := 1, first_name := "Ann", last_name := "Lee", email := "ann@x.com", user_id := 1 }

/-- Sample store holding `contact1`, `user1` and `user2`. -/
def db1 : Db := { contacts := [contact1], users := [user1, user2] }

/-- The empty store. -/
def emptyDb : Db := { contacts := [], users := [] }

/-- C1 witness: `user2` cannot see or touch `user1`'s contact. -/
theorem ownership_isolation_witness :
    get_contact contact1.id user2 db1 =
      .error { status_code := HTTP_404_NOT_FOUND, detail := "Contact not found" }
    ∧ (∀ (i : Nat) (d : Contact), get_contact_by_id i user2 db1 = some d → d.user_id = user2.id)
    ∧ (∀ (skip limit : Nat) (fn ln em : Option String) (d : Contact),
        d ∈ get_contacts skip limit fn ln em user2 db1 → d.user_id = user2.id)
    ∧ update_contact contact1.id annBody user2 db1 = (none, db1)
    ∧ remove_contact contact1.id user2 db1 = (none, db1) :=
  ownership_isolation user1 user2 contact1 annBody db1 (by decide)
    (by simp [db1]) (by decide) (by simp [db1, contact1])

/-- C2. A scoped list query matching zero contacts makes the listing
route answer 404 "Contacts not found" instead of an empty collection. -/
theorem empty_list_reports_not_found (skip limit : Nat) (fn ln em : Option String)
    (user : User) (db : Db)
    (h : get_contacts skip limit fn ln em user db = []) :
    get_contact_by_params skip limit fn ln em user db =
      .error { status_code := HTTP_404_NOT_FOUND, detail := "Contacts not found" } := by
  rw [get_contact_by_params]
  simp [h]

/-- C2 witness: listing an empty store answers 404. -/
theorem empty_list_reports_not_found_witness :
    get_contacts 0 10 none none none user1 emptyDb = [] ∧
    get_contact_by_params 0 10 none none none user1 emptyDb =
      .error { status_code := HTTP_404_NOT_FOUND, detail := "Contacts not found" } :=
  ⟨rfl, empty_list_reports_not_found 0 10 none none none user1 emptyDb rfl⟩

/-- C3. Create round-trip: the created entity equals the input plus a
generated identifier and the owner; reading that identifier back as the
same owner returns exactly the created entity. -/
theorem create_then_get_roundtrip (body : ContactModel) (user : User) (db : Db) :
    (create_contact body user db).1 =
      { id := freshId db, first_name := body.first_name, last_name := body.last_name,
        email := body.email, user_id := user.id }
    ∧ get_contact_by_id (create_contact body user db).1.id user
        (create_contact body user db).2 = some (create_contact body user db).1 := by
  refine ⟨rfl, ?_⟩
  rw [create_contact, get_contact_by_id]
  simp only [List.find?_append]
  have hnone : db.contacts.find? (matchesIdOwner (freshId db) user) = none := by
    rw [List.find?_eq_none]
    intro d hd hpd
    simp [matchesIdOwner] at hpd
    have hle : d.id ≤ db.contacts.foldr (fun c m => max c.id m) 0 := id_le_foldr_max hd
    rw [hpd.1] at hle
    exact Nat.not_succ_le_self _ hle
  rw [hnone]
  simp [matchesIdOwner]

/-- C4. Update round-trip: when an owned contact with the requested id
exists, the update returns the record whose fields are exactly the input
with the identifier and owner unchanged, and reading the id back as the
same owner returns exactly that record; when no such owned record
exists, the update route answers 404 and leaves the store unchanged. -/
theorem update_then_get_roundtrip (contact_id : Nat) (body : ContactModel) (user : User)
    (db : Db) :
    (∀ c0, get_contact_by_id contact_id user db = some c0 →
      (update_contact contact_id body user db).1 =
        some { id := contact_id, first_name := body.first_name,
               last_name := body.last_name, email := body.email, user_id := user.id }
      ∧ get_contact_by_id contact_id user (update_contact contact_id body user db).2 =
        some { id := contact_id, first_name := body.first_name,
               last_name := body.last_name, email := body.email, user_id := user.id })
    ∧ (get_contact_by_id contact_id user db = none →
      update_contact_route body contact_id user db =
        (.error { status_code := HTTP_404_NOT_FOUND, detail := "Contact not found" }, db)) := by
  constructor
  · intro c0 h0
    have hid : c0.id = contact_id := id_of_get_contact_by_id h0
    have hown : c0.user_id = user.id := owner_of_get_contact_by_id h0
    have hfind : db.contacts.find? (matchesIdOwner contact_id user) = some c0 := h0
    have hg : ∀ c, matchesIdOwner contact_id user
        (if matchesIdOwner contact_id user c then
          { id := c.id, first_name := body.first_name, last_name := body.last_name,
            email := body.email, user_id := c.user_id }
         else c) = matchesIdOwner contact_id user c := by
      intro c
      cases hif : matchesIdOwner contact_id user c with
      | false => simp [hif]
      | true => rw [if_pos rfl]; exact hif
    constructor
    · rw [update_contact, hfind]
      simp [hid, hown]
    · rw [update_contact, hfind]
      simp only [get_contact_by_id]
      rw [find?_map_of_pred_eq hg, hfind]
      have hc0 : matchesIdOwner contact_id user c0 = true := List.find?_some hfind
      simp [hc0, hid, hown]
  · intro h0
    rw [update_contact_route]
    have : update_contact contact_id body user db = (none, db) := by
      rw [update_contact]
      rw [get_contact_by_id] at h0
      rw [h0]
    rw [this]

/-- C4 witness: updating `contact1` as its owner, and updating a missing
id, behave as stated. -/
theorem update_then_get_roundtrip_witness :
    ((update_contact contact1.id annBody user1 db1).1 =
        some { id := contact1.id, first_name := annBody.first_name,
               last_name := annBody.last_name, email := annBody.email, user_id := user1.id }
      ∧ get_contact_by_id contact1.id user1 (update_contact contact1.id annBody user1 db1).2 =
        some { id := contact1.id, first_name := annBody.first_name,
               last_name := annBody.last_name, email := annBody.email, user_id := user1.id })
    ∧ update_contact_route annBody 7 user1 db1 =
        (.error { status_code := HTTP_404_NOT_FOUND, detail := "Contact not found" }, db1) :=
  ⟨(update_then_get_roundtrip contact1.id annBody user1 db1).1 contact1 (by decide),
   (update_then_get_roundtrip 7 annBody user1 db1).2 (by decide)⟩

/-- C5. Delete: when an owned contact with the requested id exists, the
removal returns its prior state and a subsequent read of the id by the
same owner finds nothing; when no such owned record exists, the delete
route answers 404 and leaves the store unchanged. -/
theorem delete_then_get_not_found (contact_id : Nat) (user : User) (db : Db) :
    (∀ c0, get_contact_by_id contact_id user db = some c0 →
      (remove_contact contact_id user db).1 = some c0
      ∧ get_contact_by_id contact_id user (remove_contact contact_id user db).2 = none)
    ∧ (get_contact_by_id contact_id user db = none →
      remove_tag contact_id user db =
        (.error { status_code := HTTP_404_NOT_FOUND, detail := "Contact not found" }, db)) := by
  constructor
  · intro c0 h0
    have hfind : db.contacts.find? (matchesIdOwner contact_id user) = some c0 := h0
    constructor
    · rw [remove_contact, hfind]
    · rw [remove_contact, hfind]
      simp only [get_contact_by_id]
      rw [List.find?_eq_none]
      intro d hd
      have := (List.mem_filter.mp hd).2
      simp at this
      simp [this]
  · intro h0
    rw [remove_tag]
    have : remove_contact contact_id user db = (none, db) := by
      rw [remove_contact]
      rw [get_contact_by_id] at h0
      rw [h0]
    rw [this]

/-- C5 witness: deleting `contact1` as its owner returns its prior state
and makes it unreadable; deleting a missing id answers 404. -/
theorem delete_then_get_not_found_witness :
    ((remove_contact contact1.id user1 db1).1 = some contact1
      ∧ get_contact_by_id contact1.id user1 (remove_contact contact1.id user1 db1).2 = none)
    ∧ remove_tag 7 user1 db1 =
        (.error { status_code := HTTP_404_NOT_FOUND, detail := "Contact not found" }, db1) :=
  ⟨(delete_then_get_not_found contact1.id user1 db1).1 contact1 (by decide),
   (delete_then_get_not_found 7 user1 db1).2 (by decide)⟩

/-- C6. The `RateLimiter(times=20, seconds=60)` dependency guards the
contact-listing, get-by-id and create endpoints, and exactly those among
the five contact endpoints. -/
theorem rate_limit_exactly_on_list_get_create :
    ∀ e : ContactEndpoint,
      rateLimiterOf e = some { times := 20, seconds := 60 } ↔
        (e = .listContacts ∨ e = .getById ∨ e = .createContact) := by
  intro e
  cases e <;> simp [rateLimiterOf]

/-- C8. Pagination of the listing operation: the route's defaults are
`skip = 0` and `limit = 10`; a call with no filters, `skip = 0` and
`limit = 10` returns at most 10 contacts, each owned by the requesting
user, and the result is a sublist of the store (a stable order). -/
theorem list_default_pagination :
    defaultSkip = 0 ∧ defaultLimit = 10 ∧
    ∀ (user : User) (db : Db),
      (get_contacts 0 10 none none none user db).length ≤ 10
      ∧ (∀ c ∈ get_contacts 0 10 none none none user db, c.user_id = user.id)
      ∧ (get_contacts 0 10 none none none user db).Sublist db.contacts := by
  refine ⟨rfl, rfl, ?_⟩
  intro user db
  refine ⟨?_, ?_, ?_⟩
  · rw [get_contacts]
    rw [List.length_take]
    exact min_le_left _ _
  · intro c hc
    have h1 : c ∈ db.contacts.filter fun x =>
        x.user_id == user.id && matchesFilters none none none x :=
      List.mem_of_mem_drop (List.mem_of_mem_take hc)
    have h2 := (List.mem_filter.mp h1).2
    simp at h2
    exact h2.1
  · exact (List.take_sublist _ _).trans
      ((List.drop_sublist _ _).trans (List.filter_sublist _))

/-- C8 witness: listing `db1` as `user1` with the defaults. -/
theorem list_default_pagination_witness :
    defaultSkip = 0 ∧ defaultLimit = 10 ∧
    ((get_contacts 0 10 none none none user1 db1).length ≤ 10
      ∧ (∀ c ∈ get_contacts 0 10 none none none user1 db1, c.user_id = user1.id)
      ∧ (get_contacts 0 10 none none none user1 db1).Sublist db1.contacts) :=
  ⟨list_default_pagination.1, list_default_pagination.2.1,
   list_default_pagination.2.2 user1 db1⟩

/-- C9. Among the five contact handlers only create lacks a not-found
branch: it answers with the repository's result unconditionally, while
the list, get-by-id, update and delete handlers each answer 404 when the
repository yields no record. -/
theorem create_only_handler_without_not_found :
    (∀ (body : ContactModel) (user : User) (db : Db),
      (create_contact_route body user db).1 = .ok (create_contact body user db).1)
    ∧ (∀ (skip limit : Nat) (fn ln em : Option String) (user : User) (db : Db),
        get_contacts skip limit fn ln em user db = [] →
        get_contact_by_params skip limit fn ln em user db =
          .error { status_code := HTTP_404_NOT_FOUND, detail := "Contacts not found" })
    ∧ (∀ (contact_id : Nat) (user : User) (db : Db),
        get_contact_by_id contact_id user db = none →
        get_contact contact_id user db =
          .error { status_code := HTTP_404_NOT_FOUND, detail := "Contact not found" })
    ∧ (∀ (body : ContactModel) (contact_id : Nat) (user : User) (db : Db),
        get_contact_by_id contact_id user db = none →
        (update_contact_route body contact_id user db).1 =
          .error { status_code := HTTP_404_NOT_FOUND, detail := "Contact not found" })
    ∧ (∀ (contact_id : Nat) (user : User) (db : Db),
        get_contact_by_id contact_id user db = none →
        (remove_tag contact_id user db).1 =
          .error { status_code := HTTP_404_NOT_FOUND, detail := "Contact not found" }) := by
  refine ⟨fun body user db => rfl, ?_, ?_, ?_, ?_⟩
  · intro skip limit fn ln em user db h
    rw [get_contact_by_params]
    simp [h]
  · intro contact_id user db h
    rw [get_contact, h]
  · intro body contact_id user db h
    rw [update_contact_route]
    rw [get_contact_by_id] at h
    rw [update_contact, h]
  · intro contact_id user db h
    rw [remove_tag]
    rw [get_contact_by_id] at h
    rw [remove_contact, h]

/-- C9 witness: create on `db1` answers ok; the other four handlers
answer 404 on the empty store. -/
theorem create_only_handler_without_not_found_witness :
    (create_contact_route annBody user1 db1).1 = .ok (create_contact annBody user1 db1).1
    ∧ get_contact_by_params 0 10 none none none user1 emptyDb =
        .error { status_code := HTTP_404_NOT_FOUND, detail := "Contacts not found" }
    ∧ get_contact 5 user1 emptyDb =
        .error { status_code := HTTP_404_NOT_FOUND, detail := "Contact not found" }
    ∧ (update_contact_route annBody 5 user1 emptyDb).1 =
        .error { status_code := HTTP_404_NOT_FOUND, detail := "Contact not found" }
    ∧ (remove_tag 5 user1 emptyDb).1 =
        .error { status_code := HTTP_404_NOT_FOUND, detail := "Contact not found" } :=
  ⟨create_only_handler_without_not_found.1 annBody user1 db1,
   create_only_handler_without_not_found.2.1 0 10 none none none user1 emptyDb rfl,
   create_only_handler_without_not_found.2.2.1 5 user1 emptyDb rfl,
   create_only_handler_without_not_found.2.2.2.1 annBody 5 user1 emptyDb rfl,
   create_only_handler_without_not_found.2.2.2.2 5 user1 emptyDb rfl⟩

/-- Merging the path separator into the bucket-path literal. -/
theorem slash_contacts_app (x : String) :
    "/" ++ ("ContactsApp/" ++ x) = "/ContactsApp/" ++ x := by
  rw [← String.append_assoc]
  rfl

/-- C7. The avatar route uploads under the logical path
`ContactsApp/{username}` with overwrite-on-conflict, and the URL it
persists for every stored user record matching the caller's email ends
in the caller's username and carries the fixed 250×250 fill-crop
transform segment `c_fill,h_250,w_250`. -/
theorem avatar_upload_and_url (u : User) (version : Nat) (db : Db) :
    (update_avatar_user u version db).req.publicId = "ContactsApp/" ++ u.username
    ∧ (update_avatar_user u version db).req.overwrite = true
    ∧ (∃ p, (update_avatar_user u version db).url = p ++ u.username)
    ∧ (∃ p s, (update_avatar_user u version db).url
        = p ++ transformSegment 250 250 "fill" ++ s)
    ∧ transformSegment 250 250 "fill" = "c_fill,h_250,w_250"
    ∧ (∀ v ∈ db.users, v.email = u.email →
        { v with avatar := some (update_avatar_user u version db).url }
          ∈ (update_avatar_user u version db).db.users) := by
  refine ⟨rfl, rfl, ?_, ?_, rfl, ?_⟩
  · refine ⟨("https://res.cloudinary.com/image/upload/" ++ transformSegment 250 250 "fill"
      ++ ("/v" ++ toString version ++ "/")) ++ "ContactsApp/", ?_⟩
    simp [update_avatar_user, build_url, String.append_assoc, slash_contacts_app]
  · refine ⟨"https://res.cloudinary.com/image/upload/",
      ("/v" ++ toString version ++ "/") ++ ("ContactsApp/" ++ u.username), ?_⟩
    simp [update_avatar_user, build_url, String.append_assoc, slash_contacts_app]
  · intro v hv he
    simp only [update_avatar_user, update_avatar]
    refine List.mem_map.mpr ⟨v, hv, ?_⟩
    simp [he]

/-- C7 witness: `user2` uploading a file (version token 7) over `db1`. -/
theorem avatar_upload_and_url_witness :
    (update_avatar_user user2 7 db1).req.publicId = "ContactsApp/" ++ user2.username
    ∧ (update_avatar_user user2 7 db1).req.overwrite = true
    ∧ (∃ p, (update_avatar_user user2 7 db1).url = p ++ user2.username)
    ∧ (∃ p s, (update_avatar_user user2 7 db1).url
        = p ++ transformSegment 250 250 "fill" ++ s)
    ∧ transformSegment 250 250 "fill" = "c_fill,h_250,w_250"
    ∧ { user2 with avatar := some (update_avatar_user user2 7 db1).url }
        ∈ (update_avatar_user user2 7 db1).db.users :=
  have h := avatar_upload_and_url user2 7 db1
  ⟨h.1, h.2.1, h.2.2.1, h.2.2.2.1, h.2.2.2.2.1,
   h.2.2.2.2.2 user2 (by simp [db1]) rfl⟩

/-- C10. The avatar route keys the upload path by the caller's username
but persists the URL against records selected by the caller's email:
records whose email differs from the caller's are unchanged, records
whose email matches receive the URL, and any record that differs after
the call has the caller's email — whatever the caller's username. -/
theorem avatar_record_selected_by_email (u : User) (version : Nat) (db : Db) :
    (update_avatar_user u version db).req.publicId = "ContactsApp/" ++ u.username
    ∧ (∀ v ∈ db.users, v.email ≠ u.email → v ∈ (update_avatar_user u version db).db.users)
    ∧ (∀ v ∈ db.users, v.email = u.email →
        { v with avatar := some (update_avatar_user u version db).url }
          ∈ (update_avatar_user u version db).db.users)
    ∧ (∀ (i : Nat) (h1 : i < (update_avatar_user u version db).db.users.length)
        (h2 : i < db.users.length),
        (update_avatar_user u version db).db.users.get ⟨i, h1⟩ ≠ db.users.get ⟨i, h2⟩ →
        (db.users.get ⟨i, h2⟩).email = u.email) := by
  refine ⟨rfl, ?_, ?_, ?_⟩
  · intro v hv he
    simp only [update_avatar_user, update_avatar]
    refine List.mem_map.mpr ⟨v, hv, ?_⟩
    simp [he]
  · intro v hv he
    simp only [update_avatar_user, update_avatar]
    refine List.mem_map.mpr ⟨v, hv, ?_⟩
    simp [he]
  · intro i h1 h2 hne
    by_contra hmail
    apply hne
    have e : (update_avatar_user u version db).db.users
        = db.users.map (fun w => if w.email == u.email
            then { w with avatar := some (update_avatar_user u version db).url } else w) := by
      simp [update_avatar_user, update_avatar]
    simp only [List.get_eq_getElem]
    simp only [e, List.getElem_map]
    have hb : ((db.users.get ⟨i, h2⟩).email == u.email) = false := by
      simp only [List.get_eq_getElem] at hmail
      simp [hmail]
    simp only [List.get_eq_getElem] at hb
    simp [hb]

/-- C10 witness: with caller `user2` over `db1`, `user1` is untouched,
`user2`'s record receives the URL, and the one changed slot is the one
with `user2`'s email. -/
theorem avatar_record_selected_by_email_witness :
    (update_avatar_user user2 7 db1).req.publicId = "ContactsApp/" ++ user2.username
    ∧ user1 ∈ (update_avatar_user user2 7 db1).db.users
    ∧ { user2 with avatar := some (update_avatar_user user2 7 db1).url }
        ∈ (update_avatar_user user2 7 db1).db.users
    ∧ (db1.users.get ⟨1, by simp [db1]⟩).email = user2.email :=
  have h := avatar_record_selected_by_email user2 7 db1
  ⟨h.1, h.2.1 user1 (by simp [db1]) (by simp [user1, user2]),
   h.2.2.1 user2 (by simp [db1]) rfl,
   h.2.2.2 1 (by simp [update_avatar_user, update_avatar, db1]) (by simp [db1])
     (by simp [update_avatar_user, update_avatar, db1, user2])⟩

end ContactsApp
